import Mathlib

/-!
Shallow embedding of `src/server/index.js` (an Express service with a
persistent sqlite-backed store and a proxy endpoint to an upstream AI API),
together with theorems settling the specification claims about it.

Conventions of the embedding:
* JavaScript numbers that occur here are small non-negative integers, modelled
  as `Nat`; JavaScript strings are `String`.
* `process.env.PORT` is a `String` when set (Node exposes environment
  variables as strings) and absent otherwise, hence `Option String`.
* Promise-based code is modelled by explicit outcome values; the distinction
  between a synchronous throw and an asynchronous rejection is kept where the
  source's control flow depends on it (`checkAndInitializeDatabase`).
* Stateful lifecycle behaviour (signal-triggered drain) is a labelled step
  relation on an explicit state type.
-/

namespace Srv

/-- A JavaScript value met in the port computation of `index.js`:
`process.env.PORT` is a string, the default literal `3000` is a number. -/
inductive JsVal where
  | str (s : String)
  | num (n : Nat)
  deriving DecidableEq

/-- JavaScript truthiness for the values above: a string is falsy exactly when
empty, a number exactly when zero. -/
def JsVal.truthy : JsVal → Bool
  | .str s => !s.isEmpty
  | .num n => n != 0

/-- The JavaScript binary `+` on these values: number + number adds; when
either operand is a string, `+` concatenates the decimal renderings. -/
def JsVal.add : JsVal → JsVal → JsVal
  | .num a, .num b => .num (a + b)
  | .str a, .num b => .str (a ++ toString b)
  | .num a, .str b => .str (toString a ++ b)
  | .str a, .str b => .str (a ++ b)

/-- Decimal value of a digit string (the only strings reaching `listen` here). -/
def decStrToNat (s : String) : Nat :=
  s.data.foldl (fun acc c => acc * 10 + (c.toNat - 48)) 0

/-- Node's `server.listen` port normalization: a number is used as the TCP
port; a numeric string is coerced with `Number` before binding. -/
def listenPort : JsVal → Nat
  | .num n => n
  | .str s => decStrToNat s

/-- Line 209: `const PORT = process.env.PORT || 3000`. When the variable is
set (a non-empty, hence truthy, string) `PORT` holds that string; otherwise
the numeric default `3000`. -/
def portVar (envPORT : Option String) : JsVal :=
  match envPORT with
  | some s => if JsVal.truthy (.str s) then .str s else .num 3000
  | none => .num 3000

/-- Outcome of the transient test bind opened by `isPortInUse`
(lines 77-93): the tester either starts listening, or its error event fires
with code `EADDRINUSE`, or with some other code (for example `EACCES`). -/
inductive BindOutcome where
  | listening
  | errAddrInUse
  | errOther (code : String)
  deriving DecidableEq

/-- `isPortInUse` (lines 77-93): resolves `true` only when the tester's error
code is `EADDRINUSE`; any other error is logged (line 84) and resolved
`false`; a successful test bind is closed and resolves `false`. -/
def isPortInUse : BindOutcome → Bool
  | .errAddrInUse => true
  | .errOther _ => false
  | .listening => false

/-- The value `startServer` passes to `app.listen` (lines 209-222): `PORT + 1`
when the tester reported the port in use, else `PORT`. Note `PORT + 1` is the
JavaScript `+`: on a string-valued `PORT` it concatenates. -/
def selectedPortVal (envPORT : Option String) (outcome : BindOutcome) : JsVal :=
  if isPortInUse outcome then (portVar envPORT).add (.num 1) else portVar envPORT

/-- The TCP port the real listener binds, after Node's port coercion. -/
def boundPort (envPORT : Option String) (outcome : BindOutcome) : Nat :=
  listenPort (selectedPortVal envPORT outcome)

/-- Result of the port-resolution phase of `startServer` (lines 209-226):
either `app.listen` is reached with some port, or `process.exit` is called
with a non-zero code. -/
inductive StartResult where
  | listens (port : Nat)
  | fatalExit (code : Nat)
  deriving DecidableEq

/-- The port-resolution phase of `startServer`: `isPortInUse` never rejects
(every branch of its promise resolves), so the `catch` at line 223 is not
reached from port checking and `app.listen` is always invoked, with the
port `boundPort` describes. -/
def startServerBind (envPORT : Option String) (outcome : BindOutcome) : StartResult :=
  .listens (boundPort envPORT outcome)

/-- A row of the `user_data` table (schema at lines 55-64). The four payload
columns hold whatever JavaScript value the insert bound for them, possibly
`undefined` (`none`); `created_at` is the insertion timestamp. -/
structure UserRow where
  id : Nat
  budget : Option JsVal
  city : Option JsVal
  investment_type : Option JsVal
  target_audience : Option JsVal
  created_at : Nat
  deriving DecidableEq

/-- The persistent store file `database.sqlite` as found at startup: absent,
a healthy database holding some rows, or corrupted (not a readable sqlite
database). -/
inductive StoreFile where
  | absent
  | healthy (rows : List UserRow)
  | corrupted
  deriving DecidableEq

/-- How the health probe `db.execute('SELECT 1')` at line 21 can fail: with a
synchronous throw from the call itself, or with a rejection of the promise it
returns. The call is not awaited, so only a synchronous throw reaches the
`catch` at line 22. -/
inductive ProbeOutcome where
  | ok
  | syncThrow
  | asyncReject
  deriving DecidableEq

/-- Probe outcome as a function of the store file. `createClient` and the
`execute` call itself do not touch the file; `execute` is an async method, so
a corrupted file surfaces as a rejection of the returned promise, never as a
synchronous throw. -/
def probeOf : StoreFile → ProbeOutcome
  | .corrupted => .asyncReject
  | _ => .ok

/-- `checkAndInitializeDatabase` (lines 13-30): returns whether
`fs.unlinkSync(DB_PATH)` runs. The file is deleted only when it exists and
the probe fails with a synchronous throw — the `db.execute('SELECT 1')`
promise is not awaited, so a rejection bypasses the `catch` at line 22 and
becomes an unhandled rejection instead. -/
def checkAndInitializeDatabase (fileExists : Bool) (probe : ProbeOutcome) : Bool :=
  if fileExists then
    match probe with
    | .syncThrow => true
    | _ => false
  else false

/-- Outcome of `initializeDatabase` (lines 47-71): whether `process.exit(1)`
is reached, and the store contents the service would serve with otherwise. -/
structure InitOutcome where
  exitsFatally : Bool
  fileAfter : StoreFile
  deriving DecidableEq

/-- `initializeDatabase` (lines 47-71): runs `checkAndInitializeDatabase`,
then opens a client and executes (awaited) `CREATE TABLE IF NOT EXISTS`.
`createFails` models an independent failure of that statement (e.g. disk
error); on a corrupted file the statement always fails. Any failure in the
`try` is caught at line 67 and leads to `process.exit(1)`. -/
def initializeDatabase (file : StoreFile) (createFails : Bool) : InitOutcome :=
  let deleted := checkAndInitializeDatabase (file != .absent) (probeOf file)
  let file1 := if deleted then .absent else file
  if createFails || (file1 == .corrupted) then
    ⟨true, file1⟩
  else
    match file1 with
    | .absent => ⟨false, .healthy []⟩
    | .healthy rows => ⟨false, .healthy rows⟩
    | .corrupted => ⟨true, .corrupted⟩

/-- Effect of `shutdown` (lines 96-105) as a function of whether the module
variable `server` was ever assigned: with a server, `server.close` is invoked
and the close callback exits with code 0; without one, the process exits at
once with code 0. -/
structure ShutdownEffect where
  closesListener : Bool
  exitCode : Nat
  deriving DecidableEq

/-- `shutdown` (lines 96-105). -/
def shutdown (serverStarted : Bool) : ShutdownEffect :=
  if serverStarted then ⟨true, 0⟩ else ⟨false, 0⟩

/-- An HTTP response written by the proxy handler: the status code and the
body text (for error paths, the message placed in the JSON error object). -/
structure HttpResponse where
  status : Nat
  body : String
  deriving DecidableEq

/-- Settlement of the promise returned by `fetchWithTimeout`, as the proxy
handler observes it: the fetch resolved with a response (HTTP status, whether
its body parses as JSON, the body text), or it rejected with an error carrying
a name and a message. An abort by the timeout controller rejects the fetch
with an error named `AbortError`. -/
inductive FetchOutcome where
  | response (status : Nat) (jsonOk : Bool) (body : String)
  | reject (name : String) (message : String)
  deriving DecidableEq

/-- `response.ok` of the Fetch API: status in the range 200-299. -/
def responseOk (status : Nat) : Bool :=
  200 ≤ status && status ≤ 299

/-- The fixed 504 message of line 202. -/
def proxyTimeoutMsg : String := "Request timeout - AI service is not responding"

/-- The fixed generic 500 message of line 204. -/
def proxyGenericMsg : String := "Failed to process AI request"

/-- The `/api/proxy/ai` handler (lines 164-207) as a function of the outbound
call's settlement. A non-ok status makes the handler throw a plain `Error`
(line 194), caught by the same `catch` as a fetch rejection; a non-JSON body
makes `response.json()` reject with a `SyntaxError`. The `catch` (lines
199-206) maps an error named `AbortError` to 504 with `proxyTimeoutMsg` and
everything else to 500 with `proxyGenericMsg`. -/
def proxyHandler : FetchOutcome → HttpResponse
  | .response status jsonOk body =>
      if responseOk status then
        if jsonOk then ⟨200, body⟩
        else ⟨500, proxyGenericMsg⟩
      else ⟨500, proxyGenericMsg⟩
  | .reject name _ =>
      if name = "AbortError" then ⟨504, proxyTimeoutMsg⟩
      else ⟨500, proxyGenericMsg⟩

/-- Whether a settlement is the success case the handler forwards: ok status
and a JSON body. -/
def settleSuccess : FetchOutcome → Bool
  | .response status jsonOk _ => responseOk status && jsonOk
  | .reject _ _ => false

/-- Whether a settlement is the timeout abort. -/
def settleAbort : FetchOutcome → Bool
  | .response _ _ _ => false
  | .reject name _ => name == "AbortError"

/-- The inbound request to `/api/proxy/ai` as the handler could observe it:
the `input_value` field of the JSON body (absent when undefined), the
remaining body fields, and the request headers. -/
structure InboundProxyRequest where
  input_value : Option String
  otherBodyFields : List (String × String)
  reqHeaders : List (String × String)
  deriving DecidableEq

/-- The outbound request the proxy builds (lines 167-191): URL, method,
headers, and the JSON body's fields — `input_value` plus the fixed
`output_type`, `input_type` and tweak keys. -/
structure UpstreamRequest where
  url : String
  method : String
  headers : List (String × String)
  bodyInputValue : Option String
  bodyOutputType : String
  bodyInputType : String
  bodyTweakKeys : List String
  deriving DecidableEq

/-- The fixed upstream endpoint of line 168. -/
def upstreamUrl : String :=
  "http://26.59.53.88:7860/api/v1/run/ac325ffc-2462-42ff-aa33-292f0c33b66b?stream=false"

/-- Construction of the outbound request (lines 167-191): every component is
a literal of the source except `bodyInputValue`, which is
`req.body.input_value`. -/
def buildUpstreamRequest (req : InboundProxyRequest) : UpstreamRequest :=
  ⟨upstreamUrl, "POST",
    [("Content-Type", "application/json"),
     ("x-api-key", "sk-tjmcaGsj62BGA6iy-13F1Q9esTKx-4QLYb9u_TVL84k")],
    req.input_value, "chat", "chat",
    ["Agent-2KW2O", "ChatInput-6v3mV", "PythonFunction-FcmS4",
     "PythonFunction-T0TgC", "NVIDIAEmbeddingsComponent-JJW34",
     "Chroma-ujg9M", "ChatOutput-uuXRz"]⟩

/-- A handler response on `/api/user-data`: `res.json(v)` with implicit
status 200, or `res.status(500).json` with a message. -/
inductive ApiResponse (α : Type) where
  | ok (value : α)
  | error500 (message : String)

/-- HTTP status of an `ApiResponse`. -/
def ApiResponse.statusOf {α : Type} : ApiResponse α → Nat
  | .ok _ => 200
  | .error500 _ => 500

/-- Body of a POST `/api/user-data` request: the four fields destructured at
line 133, each possibly undefined, plus whatever else the client sent. -/
structure UserDataBody where
  budget : Option JsVal
  city : Option JsVal
  investmentType : Option JsVal
  targetAudience : Option JsVal
  otherFields : List (String × String)
  deriving DecidableEq

/-- The argument list bound into the INSERT at lines 135-138: exactly the
four destructured fields, in order, with no validation. -/
def insertArgs (body : UserDataBody) : List (Option JsVal) :=
  [body.budget, body.city, body.investmentType, body.targetAudience]

/-- What one run of the POST handler did: the arguments it sent to storage
(`none` would mean storage was never invoked) and the response it wrote. -/
structure PostOutcome where
  sentArgs : Option (List (Option JsVal))
  response : ApiResponse UserRow

/-- POST `/api/user-data` handler (lines 131-150), parameterized by the
storage collaborator's reaction to the insert-then-select round trip: every
body goes straight to the INSERT; a storage failure is caught and mapped to
500 with a fixed message; success returns the row read back. -/
def postUserDataHandler (body : UserDataBody)
    (storage : List (Option JsVal) → Except String UserRow) : PostOutcome :=
  match storage (insertArgs body) with
  | .ok row => ⟨some (insertArgs body), .ok row⟩
  | .error _ => ⟨some (insertArgs body), .error500 "Failed to save user data"⟩

/-- The descending-creation-time order requested by the SELECT at line 155. -/
def createdDesc (a b : UserRow) : Prop :=
  b.created_at ≤ a.created_at

instance : DecidableRel createdDesc :=
  fun a b => Nat.decLe b.created_at a.created_at

instance : IsTotal UserRow createdDesc :=
  ⟨fun a b => Nat.le_total b.created_at a.created_at⟩

instance : IsTrans UserRow createdDesc :=
  ⟨fun _ _ _ h₁ h₂ => le_trans h₂ h₁⟩

/-- `SELECT * FROM user_data ORDER BY created_at DESC` (line 155), modelled
as sorting the table's rows by descending creation time. -/
def orderByCreatedDesc (rows : List UserRow) : List UserRow :=
  List.insertionSort createdDesc rows

/-- GET `/api/user-data` handler (lines 153-161), parameterized by the
outcome of reading the table: on success every stored row is returned in
descending creation order; a storage failure is caught and mapped to 500
with a fixed message. -/
def getUserDataHandler (table : Except String (List UserRow)) : ApiResponse (List UserRow) :=
  match table with
  | .ok rows => .ok (orderByCreatedDesc rows)
  | .error _ => .error500 "Failed to fetch user data"

/-- Events of one run of `fetchWithTimeout` (lines 108-123) on the
single-threaded event loop, listed in order of occurrence. -/
inductive CallEvent where
  | timerSet
  | timerExpired
  | fetchSettled (o : FetchOutcome)
  | timerCleared
  | fulfilled (o : FetchOutcome)
  | rejected (name : String)
  deriving DecidableEq

/-- How the underlying `fetch` behaves when not aborted: it settles after
`delay` time units with the given settlement, or never settles on its own. -/
inductive FetchBehavior where
  | settles (delay : Nat) (o : FetchOutcome)
  | hangs
  deriving DecidableEq

/-- The rejection an abort of the Fetch API produces: an error named
`AbortError`. -/
def abortSettle : FetchOutcome :=
  .reject "AbortError" "This operation was aborted"

/-- The outer terminal event of `fetchWithTimeout` for a given settlement of
the awaited fetch: a resolved fetch is returned (line 118), a rejected one is
rethrown (line 121). -/
def terminalOf : FetchOutcome → CallEvent
  | .response status jsonOk body => .fulfilled (.response status jsonOk body)
  | .reject name _ => .rejected name

/-- One run of `fetchWithTimeout` with the given timeout against a fetch with
behavior `b`, as the ordered list of its events. The timer is set first
(line 110). If the fetch settles strictly before `timeout` elapses, its
continuation runs `clearTimeout` while the timer is still pending, so the
timer never fires. Otherwise the timer fires at `timeout` and
`controller.abort()` makes the pending fetch reject with `AbortError`; the
`catch` continuation still runs `clearTimeout` (line 120, now a no-op on the
expired timer) before rethrowing. -/
def runFetchWithTimeout (timeout : Nat) (b : FetchBehavior) : List CallEvent :=
  match b with
  | .settles delay o =>
      if delay < timeout then
        [.timerSet, .fetchSettled o, .timerCleared, terminalOf o]
      else
        [.timerSet, .timerExpired, .fetchSettled abortSettle, .timerCleared,
          .rejected "AbortError"]
  | .hangs =>
      [.timerSet, .timerExpired, .fetchSettled abortSettle, .timerCleared,
        .rejected "AbortError"]

/-- Whether an event is a terminal settlement of the outer call. -/
def isTerminal : CallEvent → Bool
  | .fulfilled _ => true
  | .rejected _ => true
  | _ => false

/-- Whether an event is a firing of the cancellation timer. -/
def isExpiry : CallEvent → Bool
  | .timerExpired => true
  | _ => false

/-- No firing of the cancellation timer occurs after `clearTimeout` in the
given event list. -/
def noExpiryAfterClear : List CallEvent → Bool
  | [] => true
  | .timerCleared :: rest => rest.all (fun e => !isExpiry e)
  | _ :: rest => noExpiryAfterClear rest

/-- Whether the last event of the list is a terminal settlement (so nothing
in the run happens to the call after it completes). -/
def lastEventTerminal : List CallEvent → Bool
  | [] => false
  | [e] => isTerminal e
  | _ :: rest => lastEventTerminal rest

/-- Lifecycle phase of the process: serving, draining after a termination
signal, or stopped. -/
inductive Phase where
  | accepting
  | draining
  | stopped
  deriving DecidableEq

/-- Lifecycle state: the phase, how many admitted requests are still in
flight, how many responses have been flushed, and the exit status once the
process has exited. -/
structure LifeState where
  phase : Phase
  inFlight : Nat
  completed : Nat
  exited : Option Nat
  deriving DecidableEq

/-- Events of the serving-and-shutdown lifecycle. -/
inductive LifeEvent where
  | newConn
  | finish
  | signal
  | closeDone
  deriving DecidableEq

/-- Labelled transition relation of the lifecycle as composed by `index.js`:
new connections are admitted only while accepting; SIGINT or SIGTERM (lines
230-231) runs `shutdown`, whose `server.close()` (line 98) stops admission at
once; requests already in flight keep completing and their responses are
flushed; the close callback runs only once no connections remain open, and
exits the process with status 0 (lines 98-101). -/
inductive LifeStep : LifeState → LifeEvent → LifeState → Prop where
  | newConn (s : LifeState) (h : s.phase = .accepting) :
      LifeStep s .newConn ⟨.accepting, s.inFlight + 1, s.completed, none⟩
  | finish (s : LifeState) (h : 0 < s.inFlight) (hp : s.phase ≠ .stopped) :
      LifeStep s .finish ⟨s.phase, s.inFlight - 1, s.completed + 1, none⟩
  | signal (s : LifeState) (h : s.phase = .accepting) :
      LifeStep s .signal ⟨.draining, s.inFlight, s.completed, none⟩
  | closeDone (s : LifeState) (h : s.phase = .draining) (h0 : s.inFlight = 0) :
      LifeStep s .closeDone ⟨.stopped, 0, s.completed, some 0⟩

/-- Reflexive-transitive closure of `LifeStep`: a run of the lifecycle. -/
inductive LifeRun : LifeState → LifeState → Prop where
  | refl (s : LifeState) : LifeRun s s
  | step (s t u : LifeState) (e : LifeEvent) (h : LifeStep s e t)
      (hr : LifeRun t u) : LifeRun s u

end Srv

namespace Srv

/-- C1: the claim says that with the `PORT` environment variable set and the
port occupied, the service binds `PORT + 1`. The code computes `PORT + 1` on
the string `process.env.PORT`, so for `PORT=3000` occupied it binds TCP port
30001 (the coercion of the string `"30001"`), not 3001; the numeric default
path (variable unset) does fall back from 3000 to 3001. -/
theorem C1_port_fallback_concatenates :
    boundPort (some "3000") .errAddrInUse = 30001 ∧
    boundPort (some "3000") .errAddrInUse ≠ 3001 ∧
    boundPort none .errAddrInUse = 3001 ∧
    boundPort (some "3000") .listening = 3000 ∧
    boundPort none .listening = 3000 := by
  refine ⟨by decide, by decide, by decide, by decide, by decide⟩

/-- C7 counterexample: a test-bind failure with a code other than
`EADDRINUSE` (here `EACCES`) is not reported as a fatal configuration error:
`isPortInUse` resolves `false` and `startServer` proceeds to bind the
preferred port 3000. -/
theorem C7_other_bind_error_not_fatal :
    startServerBind none (.errOther "EACCES") = .listens 3000 ∧
    isPortInUse (.errOther "EACCES") = false := by
  exact ⟨rfl, rfl⟩

/-- C7 amended: only an `EADDRINUSE` test-bind failure triggers the fallback;
any other test-bind failure is logged and treated as the port being free, so
the service proceeds to bind the preferred port itself — no fatal
configuration error is raised and the test is not retried. -/
theorem C7_fallback_only_on_addr_in_use :
    ∀ (envPORT : Option String) (code : String),
      isPortInUse .errAddrInUse = true ∧
      isPortInUse (.errOther code) = false ∧
      isPortInUse .listening = false ∧
      startServerBind envPORT (.errOther code) = .listens (listenPort (portVar envPORT)) := by
  intro envPORT code
  exact ⟨rfl, rfl, rfl, rfl⟩

/-- C2: the claim says a failing health probe leads to deletion of the store
file and an empty, reinitialized database. On the failure mode the probe can
actually produce — a corrupted store, whose `db.execute('SELECT 1')` rejects
asynchronously — the un-awaited promise bypasses the `catch`: the file is not
deleted, the awaited `CREATE TABLE` then fails on the corrupted file, and the
process exits fatally with the file still in place, never reaching the
Accepting state. Deletion happens only on a synchronous throw, which the
probe never produces; the second half of the claim (reinitialization failure
is fatal) does hold, as the last conjunct shows. -/
theorem C2_corrupted_store_not_repaired :
    initializeDatabase .corrupted false = ⟨true, .corrupted⟩ ∧
    checkAndInitializeDatabase true (probeOf .corrupted) = false ∧
    checkAndInitializeDatabase true .syncThrow = true ∧
    initializeDatabase .absent false = ⟨false, .healthy []⟩ ∧
    initializeDatabase .absent true = ⟨true, .absent⟩ := by
  exact ⟨rfl, rfl, rfl, rfl, rfl⟩

/-- C3 counterexample: when no listener was ever established (`server` never
assigned), `shutdown` exits with status 0, not a non-zero status. -/
theorem C3_no_listener_exit_is_zero :
    (shutdown false).exitCode = 0 := by
  rfl

/-- C3 amended: when no listener was ever established, `shutdown` skips
`server.close` and exits the process immediately with status 0. -/
theorem C3_no_listener_skips_close :
    shutdown false = ⟨false, 0⟩ := by
  rfl

/-- C4: every settlement of the outbound call that is not the success case is
mapped to one of two fixed responses — 504 with the fixed timeout message on
an abort, otherwise 500 with the fixed generic message — so the upstream
status, error name and message never reach the caller. -/
theorem C4_proxy_error_mapping (o : FetchOutcome) (h : settleSuccess o = false) :
    proxyHandler o =
      if settleAbort o then ⟨504, proxyTimeoutMsg⟩ else ⟨500, proxyGenericMsg⟩ := by
  cases o with
  | response status jsonOk body =>
      simp only [settleSuccess, Bool.and_eq_false_iff] at h
      simp only [proxyHandler, settleAbort, if_false, Bool.false_eq_true]
      rcases h with h | h
      all_goals simp [h]
  | reject name message =>
      simp only [proxyHandler, settleAbort, beq_iff_eq]

/-- C4 witness: an upstream 503 yields exactly the generic 500 response, with
the upstream detail absent from what the caller sees. -/
theorem C4_proxy_error_mapping_witness :
    proxyHandler (.response 503 true "upstream detail") = ⟨500, proxyGenericMsg⟩ := by
  have h := C4_proxy_error_mapping (.response 503 true "upstream detail") (by decide)
  simpa [settleAbort] using h

/-- C8: a successful table read yields the 200 response carrying a
permutation of all stored rows, sorted by descending creation time; a
storage failure yields status 500. -/
theorem C8_get_all_rows_sorted_desc (rows : List UserRow) (e : String) :
    getUserDataHandler (.ok rows) = .ok (orderByCreatedDesc rows) ∧
    List.Perm (orderByCreatedDesc rows) rows ∧
    List.Sorted createdDesc (orderByCreatedDesc rows) ∧
    (getUserDataHandler (.ok rows)).statusOf = 200 ∧
    (getUserDataHandler (.error e)).statusOf = 500 := by
  exact ⟨rfl, List.perm_insertionSort _ _, List.sorted_insertionSort _ _, rfl, rfl⟩

/-- C9: the POST handler performs no validation: for every body — the four
fields present or undefined in any combination — storage is invoked with
exactly those four fields in order, and the response status is 200 or 500
(in particular never a 4xx). -/
theorem C9_post_no_validation (body : UserDataBody)
    (storage : List (Option JsVal) → Except String UserRow) :
    (postUserDataHandler body storage).sentArgs =
      some [body.budget, body.city, body.investmentType, body.targetAudience] ∧
    ((postUserDataHandler body storage).response.statusOf = 200 ∨
      (postUserDataHandler body storage).response.statusOf = 500) := by
  cases h : storage (insertArgs body) with
  | ok row =>
      simp only [postUserDataHandler, h]
      simp [insertArgs, ApiResponse.statusOf]
  | error msg =>
      simp only [postUserDataHandler, h]
      simp [insertArgs, ApiResponse.statusOf]

/-- C10: the outbound upstream request is determined solely by the inbound
body's `input_value`: two inbound requests agreeing on it produce identical
outbound requests, whatever their other body fields and headers. -/
theorem C10_upstream_determined_by_input_value
    (r₁ r₂ : InboundProxyRequest) (h : r₁.input_value = r₂.input_value) :
    buildUpstreamRequest r₁ = buildUpstreamRequest r₂ := by
  simp [buildUpstreamRequest, h]

/-- C10 witness: extra body fields and a spoofed header do not change the
outbound request. -/
theorem C10_upstream_determined_witness :
    buildUpstreamRequest ⟨some "hello", [("role", "admin")], [("x-api-key", "forged")]⟩ =
      buildUpstreamRequest ⟨some "hello", [], []⟩ :=
  C10_upstream_determined_by_input_value _ _ rfl

/-- A single lifecycle step never returns to the accepting phase once it was
left. -/
theorem LifeStep.keeps_not_accepting {s t : LifeState} {e : LifeEvent}
    (h : LifeStep s e t) (hs : s.phase ≠ .accepting) : t.phase ≠ .accepting := by
  cases h <;> simp_all

/-- Along any run from a non-accepting state, the phase stays
non-accepting. -/
theorem LifeRun.stays_not_accepting {s u : LifeState}
    (h : LifeRun s u) (hs : s.phase ≠ .accepting) : u.phase ≠ .accepting := by
  induction h with
  | refl s => exact hs
  | step s t u e hst htu ih => exact ih (hst.keeps_not_accepting hs)

/-- No connection is admitted from a state that is not accepting. -/
theorem LifeStep.no_new_connection {s t : LifeState}
    (hs : s.phase ≠ .accepting) : ¬ LifeStep s .newConn t := by
  intro h
  cases h with
  | newConn ha => exact hs ha

/-- From any draining state with `n` requests in flight, a run of `n`
completions followed by the close callback reaches the stopped state with
exit status 0 and all `n` responses flushed. -/
theorem LifeRun.drain_exists (n : Nat) :
    ∀ s : LifeState, s.phase = .draining → s.inFlight = n →
      ∃ t, LifeRun s t ∧ t.phase = .stopped ∧ t.exited = some 0 ∧
        t.inFlight = 0 ∧ t.completed = s.completed + n := by
  induction n with
  | zero =>
      intro s hp h0
      refine ⟨⟨.stopped, 0, s.completed, some 0⟩, ?_, rfl, rfl, rfl, rfl⟩
      exact LifeRun.step s _ _ .closeDone (LifeStep.closeDone s hp h0) (LifeRun.refl _)
  | succ n ih =>
      intro s hp h0
      have hstep : LifeStep s .finish ⟨s.phase, s.inFlight - 1, s.completed + 1, none⟩ :=
        LifeStep.finish s (by omega) (by simp [hp])
      obtain ⟨t, hrun, h1, h2, h3, h4⟩ :=
        ih ⟨s.phase, s.inFlight - 1, s.completed + 1, none⟩ hp (by simp [h0])
      refine ⟨t, LifeRun.step s _ t .finish hstep hrun, h1, h2, h3, ?_⟩
      simp only at h4
      omega

/-- C5: when a termination signal arrives while the listener is accepting,
the lifecycle enters draining; from there no run ever admits a new
connection, and there is a run in which every in-flight request completes and
flushes its response, after which the close callback exits the process with
status 0. -/
theorem C5_signal_drains_and_exits (s s₁ : LifeState)
    (_hacc : s.phase = .accepting) (hsig : LifeStep s .signal s₁) :
    s₁.phase = .draining ∧
    (∀ u t, LifeRun s₁ u → ¬ LifeStep u .newConn t) ∧
    (∃ t, LifeRun s₁ t ∧ t.phase = .stopped ∧ t.exited = some 0 ∧
      t.inFlight = 0 ∧ t.completed = s.completed + s.inFlight) := by
  cases hsig with
  | signal h =>
      refine ⟨rfl, ?_, ?_⟩
      · intro u t hru
        exact LifeStep.no_new_connection (hru.stays_not_accepting (by simp))
      · exact LifeRun.drain_exists s.inFlight ⟨.draining, s.inFlight, s.completed, none⟩ rfl rfl

/-- C5 witness: from an accepting state with 2 requests in flight and 5
responses already flushed, the signal leads to a drain completing both
requests and exiting with status 0. -/
theorem C5_signal_drains_witness :
    ∃ t, LifeRun ⟨.draining, 2, 5, none⟩ t ∧ t.phase = .stopped ∧
      t.exited = some 0 ∧ t.inFlight = 0 ∧ t.completed = 5 + 2 :=
  (C5_signal_drains_and_exits ⟨.accepting, 2, 5, none⟩ ⟨.draining, 2, 5, none⟩ rfl
    (LifeStep.signal ⟨.accepting, 2, 5, none⟩ rfl)).2.2

/-- C6: every run of the bounded outbound call has exactly one terminal
settlement, it is the run's last event, `clearTimeout` runs in every run, and
the timer never fires after it was cleared — so a late timer firing never
cancels or otherwise affects a call that already completed. -/
theorem C6_single_settlement_timer_disarmed (timeout : Nat) (b : FetchBehavior) :
    (runFetchWithTimeout timeout b).countP isTerminal = 1 ∧
    CallEvent.timerCleared ∈ runFetchWithTimeout timeout b ∧
    noExpiryAfterClear (runFetchWithTimeout timeout b) = true ∧
    lastEventTerminal (runFetchWithTimeout timeout b) = true := by
  cases b with
  | settles delay o =>
      by_cases hd : delay < timeout
      · cases o <;>
          simp [runFetchWithTimeout, hd, terminalOf, isTerminal, isExpiry,
            noExpiryAfterClear, lastEventTerminal, List.countP_cons, List.countP_nil]
      · cases o <;>
          simp [runFetchWithTimeout, hd, abortSettle, terminalOf, isTerminal, isExpiry,
            noExpiryAfterClear, lastEventTerminal, List.countP_cons, List.countP_nil]
  | hangs =>
      simp [runFetchWithTimeout, abortSettle, terminalOf, isTerminal, isExpiry,
        noExpiryAfterClear, lastEventTerminal, List.countP_cons, List.countP_nil]

end Srv
